import Mathlib

/-!
Verification development for the request-execution core of the smithy-rs
client runtime: the interceptor (hook) dispatch pipeline of
`rust-runtime/aws-smithy-runtime-api/src/client/interceptors.rs` and the
auth orchestration of
`rust-runtime/aws-smithy-runtime/src/client/orchestrator/auth.rs`.

The Rust code is shallowly embedded: interceptor hooks become pure
functions from an (opaque) context and configuration state to a new state
together with an optional error; the dispatch loop generated by the
`interceptor_impl_fn!` macro becomes an explicit structural recursion over
the list of registered interceptors; `orchestrate_auth` becomes a
recursion over the resolved auth-option list.
-/

/-! ## Phases and hook points

`context::phase` declares four phase marker types; each hook method of the
`Interceptor` trait is declared against exactly one of them (the second
argument of each `interceptor_trait_fn!` invocation in interceptors.rs).
-/

/-- The four phases of `client::interceptors::context::phase`. -/
inductive Phase where
  | beforeSerialization
  | beforeTransmit
  | beforeDeserialization
  | afterDeserialization
  deriving DecidableEq

/-- One constructor per hook method declared on the `Interceptor` trait
(interceptors.rs lines 56-565), in declaration order. -/
inductive HookPoint where
  | read_before_execution
  | modify_before_serialization
  | read_before_serialization
  | read_after_serialization
  | modify_before_retry_loop
  | read_before_attempt
  | modify_before_signing
  | read_before_signing
  | read_after_signing
  | modify_before_transmit
  | read_before_transmit
  | read_after_transmit
  | modify_before_deserialization
  | read_before_deserialization
  | read_after_deserialization
  | modify_before_attempt_completion
  | read_after_attempt
  | modify_before_completion
  | read_after_execution
  deriving DecidableEq

/-- The list of hook points declared on the `Interceptor` trait, in source
order. -/
def allHookPoints : List HookPoint :=
  [ .read_before_execution
  , .modify_before_serialization
  , .read_before_serialization
  , .read_after_serialization
  , .modify_before_retry_loop
  , .read_before_attempt
  , .modify_before_signing
  , .read_before_signing
  , .read_after_signing
  , .modify_before_transmit
  , .read_before_transmit
  , .read_after_transmit
  , .modify_before_deserialization
  , .read_before_deserialization
  , .read_after_deserialization
  , .modify_before_attempt_completion
  , .read_after_attempt
  , .modify_before_completion
  , .read_after_execution ]

/-- The phase each hook point is declared against: the second argument of
the corresponding `interceptor_trait_fn!` invocation in interceptors.rs. -/
def phaseOf : HookPoint → Phase
  | .read_before_execution => .beforeSerialization
  | .modify_before_serialization => .beforeSerialization
  | .read_before_serialization => .beforeSerialization
  | .read_after_serialization => .beforeTransmit
  | .modify_before_retry_loop => .beforeTransmit
  | .read_before_attempt => .beforeTransmit
  | .modify_before_signing => .beforeTransmit
  | .read_before_signing => .beforeTransmit
  | .read_after_signing => .beforeTransmit
  | .modify_before_transmit => .beforeTransmit
  | .read_before_transmit => .beforeTransmit
  | .read_after_transmit => .beforeDeserialization
  | .modify_before_deserialization => .beforeDeserialization
  | .read_before_deserialization => .beforeDeserialization
  | .read_after_deserialization => .afterDeserialization
  | .modify_before_attempt_completion => .afterDeserialization
  | .read_after_attempt => .afterDeserialization
  | .modify_before_completion => .afterDeserialization
  | .read_after_execution => .afterDeserialization

/-! ## The Interceptor trait

Each trait method takes the phase-typed context (by shared reference for
read hooks, mutable reference for modify hooks) and a mutable `ConfigBag`,
and returns `Result<(), BoxError>`.  We embed a hook as a function from
the context and configuration to the updated state together with an
optional raised error: a read hook may mutate only the configuration, a
modify hook may mutate both the context and the configuration.  `Ctx`,
`Cfg` and `Err` are kept abstract (the Rust context is type-erased).  The
default body generated by `interceptor_trait_fn!` ignores its arguments
and returns `Ok(())`, i.e. leaves all state unchanged and raises no
error; those defaults are the field defaults below. -/
structure Interceptor (Ctx Cfg Err : Type) where
  read_before_execution : Ctx → Cfg → Cfg × Option Err := fun _ cfg => (cfg, none)
  modify_before_serialization : Ctx → Cfg → (Ctx × Cfg) × Option Err := fun ctx cfg => ((ctx, cfg), none)
  read_before_serialization : Ctx → Cfg → Cfg × Option Err := fun _ cfg => (cfg, none)
  read_after_serialization : Ctx → Cfg → Cfg × Option Err := fun _ cfg => (cfg, none)
  modify_before_retry_loop : Ctx → Cfg → (Ctx × Cfg) × Option Err := fun ctx cfg => ((ctx, cfg), none)
  read_before_attempt : Ctx → Cfg → Cfg × Option Err := fun _ cfg => (cfg, none)
  modify_before_signing : Ctx → Cfg → (Ctx × Cfg) × Option Err := fun ctx cfg => ((ctx, cfg), none)
  read_before_signing : Ctx → Cfg → Cfg × Option Err := fun _ cfg => (cfg, none)
  read_after_signing : Ctx → Cfg → Cfg × Option Err := fun _ cfg => (cfg, none)
  modify_before_transmit : Ctx → Cfg → (Ctx × Cfg) × Option Err := fun ctx cfg => ((ctx, cfg), none)
  read_before_transmit : Ctx → Cfg → Cfg × Option Err := fun _ cfg => (cfg, none)
  read_after_transmit : Ctx → Cfg → Cfg × Option Err := fun _ cfg => (cfg, none)
  modify_before_deserialization : Ctx → Cfg → (Ctx × Cfg) × Option Err := fun ctx cfg => ((ctx, cfg), none)
  read_before_deserialization : Ctx → Cfg → Cfg × Option Err := fun _ cfg => (cfg, none)
  read_after_deserialization : Ctx → Cfg → Cfg × Option Err := fun _ cfg => (cfg, none)
  modify_before_attempt_completion : Ctx → Cfg → (Ctx × Cfg) × Option Err := fun ctx cfg => ((ctx, cfg), none)
  read_after_attempt : Ctx → Cfg → Cfg × Option Err := fun _ cfg => (cfg, none)
  modify_before_completion : Ctx → Cfg → (Ctx × Cfg) × Option Err := fun ctx cfg => ((ctx, cfg), none)
  read_after_execution : Ctx → Cfg → Cfg × Option Err := fun _ cfg => (cfg, none)

/-- An interceptor implementing no hook: every method keeps the default
no-op body from `interceptor_trait_fn!` (the Rust test suite's
`TestInterceptor` is exactly `impl Interceptor for TestInterceptor {}`). -/
def defaultInterceptor (Ctx Cfg Err : Type) : Interceptor Ctx Cfg Err := {}

/-- The action of one interceptor at one hook point, as a single state
transformer on the pair (context, configuration).  Read hooks receive the
context by shared reference, so the context component is unchanged by
construction; modify hooks may replace both components.  This is the
uniform view of the 19 trait methods used by the dispatch loop. -/
def Interceptor.action {Ctx Cfg Err : Type} (h : Interceptor Ctx Cfg Err) :
    HookPoint → (Ctx × Cfg) → (Ctx × Cfg) × Option Err
  | .read_before_execution => fun s =>
      let r := h.read_before_execution s.1 s.2; ((s.1, r.1), r.2)
  | .modify_before_serialization => fun s => h.modify_before_serialization s.1 s.2
  | .read_before_serialization => fun s =>
      let r := h.read_before_serialization s.1 s.2; ((s.1, r.1), r.2)
  | .read_after_serialization => fun s =>
      let r := h.read_after_serialization s.1 s.2; ((s.1, r.1), r.2)
  | .modify_before_retry_loop => fun s => h.modify_before_retry_loop s.1 s.2
  | .read_before_attempt => fun s =>
      let r := h.read_before_attempt s.1 s.2; ((s.1, r.1), r.2)
  | .modify_before_signing => fun s => h.modify_before_signing s.1 s.2
  | .read_before_signing => fun s =>
      let r := h.read_before_signing s.1 s.2; ((s.1, r.1), r.2)
  | .read_after_signing => fun s =>
      let r := h.read_after_signing s.1 s.2; ((s.1, r.1), r.2)
  | .modify_before_transmit => fun s => h.modify_before_transmit s.1 s.2
  | .read_before_transmit => fun s =>
      let r := h.read_before_transmit s.1 s.2; ((s.1, r.1), r.2)
  | .read_after_transmit => fun s =>
      let r := h.read_after_transmit s.1 s.2; ((s.1, r.1), r.2)
  | .modify_before_deserialization => fun s => h.modify_before_deserialization s.1 s.2
  | .read_before_deserialization => fun s =>
      let r := h.read_before_deserialization s.1 s.2; ((s.1, r.1), r.2)
  | .read_after_deserialization => fun s =>
      let r := h.read_after_deserialization s.1 s.2; ((s.1, r.1), r.2)
  | .modify_before_attempt_completion => fun s => h.modify_before_attempt_completion s.1 s.2
  | .read_after_attempt => fun s =>
      let r := h.read_after_attempt s.1 s.2; ((s.1, r.1), r.2)
  | .modify_before_completion => fun s => h.modify_before_completion s.1 s.2
  | .read_after_execution => fun s =>
      let r := h.read_after_execution s.1 s.2; ((s.1, r.1), r.2)

/-! ## The dispatch loop

The body generated by `interceptor_impl_fn!` (interceptors.rs 640-657) is

    let mut result: Result<(), BoxError> = Ok(());
    for interceptor in self.interceptors() {
        if let Err(new_error) = interceptor.$inner_name($context, cfg) {
            if let Err(last_error) = result {
                tracing::debug!("{}", DisplayErrorContext(&*last_error));
            }
            result = Err(new_error);
        }
    }
    result.map_err(InterceptorError::$inner_name)

i.e. every interceptor in the list is invoked, and on each failure the
previously stored error (if any) is logged and replaced by the new one.
`runHookLoopAux` is that loop with the `result` accumulator explicit; the
final `map_err` wraps the surviving error uniformly in an
`InterceptorError` tagged with the hook name (code in interceptors/error.rs,
not part of this embedding), so we return the surviving error itself. -/
def runHookLoopAux {S Err : Type} :
    List (S → S × Option Err) → S → Option Err → S × Option Err
  | [], s, result => (s, result)
  | h :: rest, s, result =>
      let step := h s
      runHookLoopAux rest step.1
        (match step.2 with
         | some newError => some newError
         | none => result)

/-- The dispatch loop started with `result = Ok(())`. -/
def runHookLoop {S Err : Type} (hooks : List (S → S × Option Err)) (s : S) :
    S × Option Err :=
  runHookLoopAux hooks s none

/-! ## Registrars and the combined interceptor list -/

/-- `InterceptorRegistrar` wraps a `Vec<SharedInterceptor>`
(interceptors.rs 598-605). -/
structure InterceptorRegistrar (Ctx Cfg Err : Type) where
  list : List (Interceptor Ctx Cfg Err)

/-- `InterceptorRegistrar::register` pushes onto the vector. -/
def InterceptorRegistrar.register {Ctx Cfg Err : Type}
    (r : InterceptorRegistrar Ctx Cfg Err) (i : Interceptor Ctx Cfg Err) :
    InterceptorRegistrar Ctx Cfg Err :=
  ⟨r.list ++ [i]⟩

/-- `Interceptors` holds the client-scoped and operation-scoped registrars
(interceptors.rs 615-619). -/
structure Interceptors (Ctx Cfg Err : Type) where
  client_interceptors : InterceptorRegistrar Ctx Cfg Err
  operation_interceptors : InterceptorRegistrar Ctx Cfg Err

/-- `Interceptors::interceptors` (interceptors.rs 665-672): the client
registrar's list chained with the operation registrar's list. -/
def Interceptors.interceptors {Ctx Cfg Err : Type}
    (i : Interceptors Ctx Cfg Err) : List (Interceptor Ctx Cfg Err) :=
  i.client_interceptors.list ++ i.operation_interceptors.list

/-- The dispatch method `interceptor_impl_fn!` generates for a hook point:
the loop of `runHookLoop` over `self.interceptors()`, each interceptor
invoked at that hook point.  The Rust macro expands one such function per
hook point; the embedding indexes them by `HookPoint`. -/
def Interceptors.dispatch {Ctx Cfg Err : Type}
    (i : Interceptors Ctx Cfg Err) (p : HookPoint) (s : Ctx × Cfg) :
    (Ctx × Cfg) × Option Err :=
  runHookLoop (i.interceptors.map (fun h => h.action p)) s

/-- `Interceptors::client_read_before_execution` (interceptors.rs 682-687):
generated with inner hook `read_before_execution` and, like every generated
dispatch method, iterating `self.interceptors()` — the full concatenation of
both registrars, not just the client one. -/
def Interceptors.client_read_before_execution {Ctx Cfg Err : Type}
    (i : Interceptors Ctx Cfg Err) (s : Ctx × Cfg) : (Ctx × Cfg) × Option Err :=
  runHookLoop (i.interceptors.map (fun h => h.action .read_before_execution)) s

/-- `Interceptors::operation_read_before_execution` (interceptors.rs
688-693): same inner hook, same iteration over `self.interceptors()`. -/
def Interceptors.operation_read_before_execution {Ctx Cfg Err : Type}
    (i : Interceptors Ctx Cfg Err) (s : Ctx × Cfg) : (Ctx × Cfg) × Option Err :=
  runHookLoop (i.interceptors.map (fun h => h.action .read_before_execution)) s

/-! ## Reference functions for the dispatch loop

`threadState` is the state after every hook has been invoked in order;
`emittedErrors` lists, in invocation order, the errors the hooks raise
when executed with the state threaded through all of them; `emits` is the
error raised by the hook at one position in that threaded execution;
`lastOr` returns the last element of a list or a fallback. -/
def threadState {S Err : Type} (hooks : List (S → S × Option Err)) (s : S) : S :=
  hooks.foldl (fun s h => (h s).1) s

def emittedErrors {S Err : Type} : List (S → S × Option Err) → S → List Err
  | [], _ => []
  | h :: rest, s =>
      match (h s).2 with
      | some e => e :: emittedErrors rest (h s).1
      | none => emittedErrors rest (h s).1

def emits {S Err : Type} : List (S → S × Option Err) → S → Nat → Option Err
  | [], _, _ => none
  | h :: _, s, 0 => (h s).2
  | h :: rest, s, k + 1 => emits rest (h s).1 k

def lastOr {Err : Type} : List Err → Option Err → Option Err
  | [], acc => acc
  | e :: rest, _ => lastOr rest (some e)

/-! ## Auth orchestration

Embedding of `orchestrate_auth`
(rust-runtime/aws-smithy-runtime/src/client/orchestrator/auth.rs 12-53).
The Rust resolvers and signers additionally receive the (fixed, call-scoped)
`&ConfigBag`; since the bag is constant throughout one `orchestrate_auth`
call, the embedding bakes that argument into the closures. -/

/-- `IdentityResolver::resolve_identity` returns a future of
`Result<Identity, BoxError>`; the single awaited result is embedded. -/
structure IdentityResolver (Ident Err : Type) where
  resolve_identity : Except Err Ident

/-- `HttpRequestSigner::sign_request` mutates the request in place and
returns `Result<(), BoxError>`; embedded as returning the signed request. -/
structure HttpRequestSigner (Req Ident Err : Type) where
  sign_request : Req → Ident → Except Err Req

/-- `HttpAuthScheme`: can produce an identity resolver from the configured
identity-resolver registry (of abstract type `IR`), and owns a request
signer. -/
structure HttpAuthScheme (Req Ident Err IR : Type) where
  identity_resolver : IR → Option (IdentityResolver Ident Err)
  request_signer : HttpRequestSigner Req Ident Err

/-- `HttpAuthSchemes`: registry from scheme identifier (`AuthSchemeId`
wraps a string) to scheme implementation, built by repeated
`auth_scheme(id, scheme)` calls. -/
structure HttpAuthSchemes (Req Ident Err IR : Type) where
  schemes : List (String × HttpAuthScheme Req Ident Err IR)

/-- `HttpAuthSchemes::scheme(scheme_id)`: look up the registered scheme
implementation for an identifier. -/
def HttpAuthSchemes.scheme {Req Ident Err IR : Type}
    (ss : HttpAuthSchemes Req Ident Err IR) (scheme_id : String) :
    Option (HttpAuthScheme Req Ident Err IR) :=
  (ss.schemes.find? (fun p => p.1 == scheme_id)).map (fun p => p.2)

/-- `AuthOptionResolver::resolve_auth_options`: from the resolver params,
an ordered candidate list of scheme identifiers, or an error. -/
structure AuthOptionResolver (Params Err : Type) where
  resolve_auth_options : Params → Except Err (List String)

/-- The accessors of the `ConfigBag` that `orchestrate_auth` reads:
`auth_option_resolver_params()`, `auth_option_resolver()`,
`identity_resolvers()`, `http_auth_schemes()`. -/
structure ConfigBag (Params Req Ident Err IR : Type) where
  auth_option_resolver_params : Params
  auth_option_resolver : AuthOptionResolver Params Err
  identity_resolvers : IR
  http_auth_schemes : HttpAuthSchemes Req Ident Err IR

/-- Modelled from the spec: `AttemptCheckpoint` (declared in
`interceptors/context.rs`, which is not among the provided sources) wraps
the context at the BeforeTransmit phase; `orchestrate_auth` reaches the
transport request through `checkpoint.before_transmit().request_mut()`,
and the checkpoint's standard failure path installs an error as the
context's output-or-error ("jump to completion"). -/
structure AttemptCheckpoint (Req Err : Type) where
  request : Req
  output_or_error : Option Err := none

/-- Modelled from the spec: the checkpoint's standard failure path installs
the error as the output-or-error carried by the context. -/
def AttemptCheckpoint.fail {Req Err : Type}
    (cp : AttemptCheckpoint Req Err) (e : Err) : AttemptCheckpoint Req Err :=
  { cp with output_or_error := some e }

/-- The error type of `orchestrate_auth`.  `constructionFailure` embeds
`SdkError::construction_failure` (the `construction_failure` helper in
auth.rs).  `noAuthSchemeMatched` — modelled from the spec: the `bail!`
macro used at auth.rs 49-52 is defined in orchestrator code not among the
provided sources; per the spec it fails fatally with a
"no auth scheme matched" error, treated as a configuration bug. -/
inductive SdkError (Err : Type) where
  | constructionFailure (e : Err)
  | noAuthSchemeMatched
  deriving DecidableEq

/-- The candidate loop of `orchestrate_auth` (auth.rs 33-52): for each
scheme identifier in order, skip it if no scheme implementation is
registered or the scheme yields no identity resolver; at the first
candidate with both, resolve the identity (failure is a construction
failure), then sign the checkpoint's request (failure goes through the
checkpoint's failure path — `handle_err!`, modelled from the spec) and
return the checkpoint.  An exhausted list is the `bail!` case. -/
def authLoop {Params Req Ident Err IR : Type}
    (cfg : ConfigBag Params Req Ident Err IR)
    (checkpoint : AttemptCheckpoint Req Err) :
    List String → Except (SdkError Err) (AttemptCheckpoint Req Err)
  | [] => .error .noAuthSchemeMatched
  | scheme_id :: rest =>
      match cfg.http_auth_schemes.scheme scheme_id with
      | none => authLoop cfg checkpoint rest
      | some auth_scheme =>
          match auth_scheme.identity_resolver cfg.identity_resolvers with
          | none => authLoop cfg checkpoint rest
          | some identity_resolver =>
              match identity_resolver.resolve_identity with
              | .error e => .error (.constructionFailure e)
              | .ok identity =>
                  match auth_scheme.request_signer.sign_request
                      checkpoint.request identity with
                  | .error e => .ok (checkpoint.fail e)
                  | .ok signed => .ok { checkpoint with request := signed }

/-- `orchestrate_auth` (auth.rs 12-53): resolve the ordered auth-option
candidate list (failure is a construction failure), then run the candidate
loop. -/
def orchestrate_auth {Params Req Ident Err IR : Type}
    (checkpoint : AttemptCheckpoint Req Err)
    (cfg : ConfigBag Params Req Ident Err IR) :
    Except (SdkError Err) (AttemptCheckpoint Req Err) :=
  match cfg.auth_option_resolver.resolve_auth_options
      cfg.auth_option_resolver_params with
  | .error e => .error (.constructionFailure e)
  | .ok auth_options => authLoop cfg checkpoint auth_options

/-- A candidate the loop skips: whenever a scheme implementation is
registered for it, that scheme yields no identity resolver.  (A candidate
with no registered scheme satisfies this vacuously.) -/
def skippedCandidate {Params Req Ident Err IR : Type}
    (cfg : ConfigBag Params Req Ident Err IR) (scheme_id : String) : Prop :=
  ∀ s, cfg.http_auth_schemes.scheme scheme_id = some s →
    s.identity_resolver cfg.identity_resolvers = none

/-! ## Attempt isolation (modelled from the spec)

The retry loop and the checkpoint-rebuild logic live in the orchestrator
module of aws-smithy-runtime, which is not among the provided sources.
Modelled from the spec (section 4.4): on entry to the retry loop the
request at BeforeTransmit is captured; each attempt mutates its own copy;
a new attempt starts from the captured pre-loop request, not from the
previous attempt's mutated request. -/
structure RetryLoopState (Req : Type) where
  pre_loop_request : Req
  attempt_request : Req

/-- Modelled from the spec: entering the retry loop captures the request. -/
def RetryLoopState.enter {Req : Type} (r : Req) : RetryLoopState Req :=
  ⟨r, r⟩

/-- Modelled from the spec: the current attempt's signer and interceptors
mutate the attempt's request. -/
def RetryLoopState.applyAttemptMutations {Req : Type}
    (st : RetryLoopState Req) (f : Req → Req) : RetryLoopState Req :=
  { st with attempt_request := f st.attempt_request }

/-- Modelled from the spec: a new attempt's checkpoint is rebuilt from the
captured pre-loop request. -/
def RetryLoopState.nextAttempt {Req : Type}
    (st : RetryLoopState Req) : RetryLoopState Req :=
  { st with attempt_request := st.pre_loop_request }

/-- Run a sequence of attempts, each applying its own mutations, ending at
the start of the following attempt. -/
def runAttempts {Req : Type} (st : RetryLoopState Req) :
    List (Req → Req) → RetryLoopState Req
  | [] => st
  | f :: rest => runAttempts ((st.applyAttemptMutations f).nextAttempt) rest

/-! ## Modify-hook type constraint (modelled from the spec)

The context's input/request/response slots are type-erased
(`TypeErasedBox`); the downcast that detects a modify hook substituting a
value of a different logical type lives in context/serializer code not
among the provided sources.  Modelled from the spec (section 4.2 contract
and section 7): the value a modify hook may replace carries a logical type
tag; a returned value whose tag differs from the one passed in is a fatal
type-constraint violation raised immediately, regardless of the dispatch
group's error policy; a hook's own error is otherwise handled by the
group's policy. -/
inductive LogicalType where
  | input
  | request
  | response
  deriving DecidableEq

/-- A type-erased value: a logical type tag plus a payload. -/
structure TypeErasedValue (Tag Val : Type) where
  tag : Tag
  val : Val

/-- The outcome of invoking one modify hook. -/
inductive ModifyHookOutcome (Tag Val Err : Type) where
  | ok (v : TypeErasedValue Tag Val)
  | hookError (e : Err)
  | typeConstraintViolation

/-- Modelled from the spec: invoke a modify hook on a type-erased value and
check the returned value's logical type against the passed one; a mismatch
is the fatal `typeConstraintViolation`, raised immediately and independent
of whether the hook itself reported an error. -/
def applyModifyHook {Tag Val Err : Type} [DecidableEq Tag]
    (hook : TypeErasedValue Tag Val → TypeErasedValue Tag Val × Option Err)
    (x : TypeErasedValue Tag Val) : ModifyHookOutcome Tag Val Err :=
  let r := hook x
  if r.1.tag = x.tag then
    match r.2 with
    | some e => .hookError e
    | none => .ok r.1
  else
    .typeConstraintViolation

/-! ## Concrete interceptors used by counterexamples and witnesses -/

/-- An interceptor whose `read_before_execution` hook appends its id to a
side-channel log kept in the configuration (the config bag is mutable for
every hook, so Rust interceptors can do exactly this). -/
def loggingRBE (n : Nat) : Interceptor Unit (List Nat) Nat :=
  { read_before_execution := fun _ cfg => (cfg ++ [n], none) }

/-- Interceptors with client-scoped logging interceptors `cs` and
operation-scoped logging interceptors `os`. -/
def mkLogged (cs os : List Nat) : Interceptors Unit (List Nat) Nat :=
  ⟨⟨cs.map loggingRBE⟩, ⟨os.map loggingRBE⟩⟩

/-- An interceptor whose `read_before_signing` hook raises error 10 and
leaves the log unchanged. -/
def erroringAtSigning : Interceptor Unit (List Nat) Nat :=
  { read_before_signing := fun _ cfg => (cfg, some 10) }

/-- An interceptor whose `read_before_signing` hook appends 20 to the log
and succeeds. -/
def recordingAtSigning : Interceptor Unit (List Nat) Nat :=
  { read_before_signing := fun _ cfg => (cfg ++ [20], none) }

/-- Client registrar holds the erroring hook, operation registrar the
recording hook: hook 0 fails, hook 1 comes after it. -/
def failFastScenario : Interceptors Unit (List Nat) Nat :=
  ⟨⟨[erroringAtSigning]⟩, ⟨[recordingAtSigning]⟩⟩

/-- An interceptor whose `read_before_attempt` hook appends its id to the
log and raises its id as an error. -/
def failingRBA (n : Nat) : Interceptor Unit (List Nat) Nat :=
  { read_before_attempt := fun _ cfg => (cfg ++ [n], some n) }

/-- Two `read_before_attempt` hooks that both fail: positions 0 and 1. -/
def collectScenario : Interceptors Unit (List Nat) Nat :=
  ⟨⟨[failingRBA 10]⟩, ⟨[failingRBA 20]⟩⟩

/-- An interceptor whose `read_before_execution` hook appends its id to the
log and raises its id as an error. -/
def failingRBE (n : Nat) : Interceptor Unit (List Nat) Nat :=
  { read_before_execution := fun _ cfg => (cfg ++ [n], some n) }

/-- Two `read_before_execution` hooks that both fail: positions 0 and 1. -/
def executionCollectScenario : Interceptors Unit (List Nat) Nat :=
  ⟨⟨[failingRBE 30]⟩, ⟨[failingRBE 40]⟩⟩

/-! ## Dispatch-loop lemmas -/

/-- The generated dispatch loop threads the state through every hook in the
list and returns the last emitted error (or the accumulator if none). -/
theorem runHookLoopAux_eq {S Err : Type} (hooks : List (S → S × Option Err)) :
    ∀ (s : S) (acc : Option Err),
      runHookLoopAux hooks s acc =
        (threadState hooks s, lastOr (emittedErrors hooks s) acc) := by
  induction hooks with
  | nil => intro s acc; rfl
  | cons h rest ih =>
      intro s acc
      cases hse : (h s).2 with
      | none =>
          simp only [runHookLoopAux, hse, threadState, List.foldl_cons, emittedErrors]
          exact ih (h s).1 acc
      | some e =>
          simp only [runHookLoopAux, hse, threadState, List.foldl_cons, emittedErrors, lastOr]
          exact ih (h s).1 (some e)

/-- If no hook in the threaded execution emits an error, the emitted-error
list is empty. -/
theorem emittedErrors_eq_nil {S Err : Type} (hooks : List (S → S × Option Err)) :
    ∀ s, (∀ k, emits hooks s k = none) → emittedErrors hooks s = [] := by
  induction hooks with
  | nil => intro s _; rfl
  | cons h rest ih =>
      intro s hall
      have h0 : (h s).2 = none := hall 0
      simp only [emittedErrors, h0]
      exact ih (h s).1 (fun k => hall (k + 1))

/-- If the hook at position `j` emits `ej` in the threaded execution and no
later hook emits anything, the last emitted error is `ej`, whatever the
accumulator. -/
theorem lastOr_emitted {S Err : Type} (hooks : List (S → S × Option Err)) :
    ∀ (s : S) (j : Nat) (ej : Err),
      emits hooks s j = some ej →
      (∀ m, j < m → emits hooks s m = none) →
      ∀ acc, lastOr (emittedErrors hooks s) acc = some ej := by
  induction hooks with
  | nil =>
      intro s j ej hj _ acc
      exact absurd hj (by simp [emits])
  | cons h rest ih =>
      intro s j ej hj hafter acc
      cases j with
      | zero =>
          have h0 : (h s).2 = some ej := hj
          have hrest : ∀ k, emits rest (h s).1 k = none :=
            fun k => hafter (k + 1) (Nat.succ_pos k)
          have hnil : emittedErrors rest (h s).1 = [] :=
            emittedErrors_eq_nil rest (h s).1 hrest
          simp [emittedErrors, h0, hnil, lastOr]
      | succ j' =>
          have hj' : emits rest (h s).1 j' = some ej := hj
          have hafter' : ∀ m, j' < m → emits rest (h s).1 m = none :=
            fun m hm => hafter (m + 1) (Nat.succ_lt_succ hm)
          cases hse : (h s).2 with
          | none =>
              simp only [emittedErrors, hse]
              exact ih (h s).1 j' ej hj' hafter' acc
          | some e =>
              simp only [emittedErrors, hse, lastOr]
              exact ih (h s).1 j' ej hj' hafter' (some e)

/-- Running the dispatch loop over logging interceptors appends their ids,
in order, to the log kept in the configuration. -/
theorem logging_run (ids : List Nat) :
    ∀ (l : List Nat) (acc : Option Nat),
      runHookLoopAux
        ((ids.map loggingRBE).map (fun h => h.action .read_before_execution))
        ((), l) acc = (((), l ++ ids), acc) := by
  induction ids with
  | nil => intro l acc; simp [runHookLoopAux]
  | cons n rest ih =>
      intro l acc
      have hstep :
          runHookLoopAux
            (((n :: rest).map loggingRBE).map (fun h => h.action .read_before_execution))
            ((), l) acc =
          runHookLoopAux
            ((rest.map loggingRBE).map (fun h => h.action .read_before_execution))
            ((), l ++ [n]) acc := rfl
      rw [hstep, ih (l ++ [n]) acc]
      simp

/-- Registering a sequence of interceptors one by one, starting from the
empty registrar, yields exactly that sequence. -/
theorem foldl_register {Ctx Cfg Err : Type} (xs : List (Interceptor Ctx Cfg Err)) :
    ∀ (r : InterceptorRegistrar Ctx Cfg Err),
      (xs.foldl InterceptorRegistrar.register r).list = r.list ++ xs := by
  induction xs with
  | nil => intro r; simp
  | cons x rest ih =>
      intro r
      simp only [List.foldl_cons, ih, InterceptorRegistrar.register]
      simp

/-- The candidate loop ignores a leading block of skipped candidates:
candidates with no registered scheme, or whose scheme yields no identity
resolver, are passed over without any other effect. -/
theorem authLoop_skip {Params Req Ident Err IR : Type}
    (cfg : ConfigBag Params Req Ident Err IR)
    (cp : AttemptCheckpoint Req Err) (pre : List String) :
    ∀ (l : List String), (∀ a ∈ pre, skippedCandidate cfg a) →
      authLoop cfg cp (pre ++ l) = authLoop cfg cp l := by
  induction pre with
  | nil => intro l _; rfl
  | cons a rest ih =>
      intro l hall
      have ha : skippedCandidate cfg a := hall a (by simp)
      have hrest : ∀ b ∈ rest, skippedCandidate cfg b :=
        fun b hb => hall b (by simp [hb])
      cases hsch : cfg.http_auth_schemes.scheme a with
      | none =>
          simp only [List.cons_append, authLoop, hsch]
          exact ih l hrest
      | some s =>
          have hnone : s.identity_resolver cfg.identity_resolvers = none := ha s hsch
          simp only [List.cons_append, authLoop, hsch, hnone]
          exact ih l hrest

/-! ## Claims about the hook dispatcher -/

/-- C1 counterexample.  The claim says that at a fail-fast hook point
(here `read_before_signing`), once the hook at position 0 fails, no hook
at a later position is invoked.  In `failFastScenario` hook 0 raises
error 10 and hook 1 appends 20 to the side-channel log in the
configuration; after dispatch the log contains 20, so hook 1 did run after
hook 0 failed, and the dispatcher still returns hook 0's error. -/
theorem c1_counterexample :
    failFastScenario.dispatch .read_before_signing ((), []) = (((), [20]), some 10)
    ∧ ((failFastScenario.dispatch .read_before_signing ((), [])).1.2 ≠ []) :=
  ⟨rfl, by decide⟩

/-- C1 amended: the dispatcher applies the same policy at every hook point
(the `interceptor_impl_fn!` loop never breaks out): it invokes every
registered hook — threading the state through all of them — and returns
the error of the latest failing hook; a failure never aborts the remaining
hooks of the group. -/
theorem c1_amended {Ctx Cfg Err : Type} (p : HookPoint)
    (i : Interceptors Ctx Cfg Err) (s : Ctx × Cfg) :
    i.dispatch p s =
      (threadState (i.interceptors.map (fun h => h.action p)) s,
       lastOr (emittedErrors (i.interceptors.map (fun h => h.action p)) s) none) :=
  runHookLoopAux_eq _ s none

/-- C3: for the collect-then-jump hook points — `read_before_execution`
and `read_before_attempt` — when the hooks at positions `ipos < jpos` both
fail in the threaded execution and no hook after `jpos` fails, the
dispatcher still invokes all hooks — the final state is the state threaded
through the entire hook list — and the single error it returns is hook
`jpos`'s error; the earlier error is dropped.  For `read_before_execution`
the same holds of both generated entry points,
`client_read_before_execution` and `operation_read_before_execution`,
through which that hook point is dispatched. -/
theorem c3_latest_error_wins {Ctx Cfg Err : Type} (p : HookPoint)
    (_hp : p = HookPoint.read_before_execution ∨ p = HookPoint.read_before_attempt)
    (i : Interceptors Ctx Cfg Err) (s : Ctx × Cfg)
    (hooks : List ((Ctx × Cfg) → (Ctx × Cfg) × Option Err))
    (hhooks : hooks = i.interceptors.map (fun h => h.action p))
    (ipos jpos : Nat) (_hij : ipos < jpos) (ei ej : Err)
    (hi : emits hooks s ipos = some ei)
    (hj : emits hooks s jpos = some ej)
    (hafter : ∀ m, jpos < m → emits hooks s m = none) :
    i.dispatch p s = (threadState hooks s, some ej)
    ∧ (p = HookPoint.read_before_execution →
        i.client_read_before_execution s = (threadState hooks s, some ej)
        ∧ i.operation_read_before_execution s = (threadState hooks s, some ej)) := by
  subst hhooks
  have hmain : i.dispatch p s =
      (threadState (i.interceptors.map (fun h => h.action p)) s, some ej) := by
    rw [show i.dispatch p s =
          runHookLoopAux (i.interceptors.map (fun h => h.action p)) s none from rfl]
    rw [runHookLoopAux_eq]
    rw [lastOr_emitted _ s jpos ej hj hafter none]
  refine ⟨hmain, ?_⟩
  intro hpe
  subst hpe
  exact ⟨hmain, hmain⟩

/-- C3 witness, covering both collect-then-jump hook points.  In
`collectScenario`, hooks 0 and 1 at `read_before_attempt` fail with errors
10 and 20; both run (both ids land in the log) and the returned error is
hook 1's error 20.  In `executionCollectScenario`, hooks 0 and 1 at
`read_before_execution` fail with errors 30 and 40; under either
`before_execution` entry point both run and the returned error is hook
1's error 40. -/
theorem c3_witness :
    0 < 1 ∧
    collectScenario.dispatch .read_before_attempt ((), []) = (((), [10, 20]), some 20) ∧
    executionCollectScenario.client_read_before_execution ((), []) =
      (((), [30, 40]), some 40) ∧
    executionCollectScenario.operation_read_before_execution ((), []) =
      (((), [30, 40]), some 40) := by
  have hatt := c3_latest_error_wins .read_before_attempt (Or.inr rfl)
    collectScenario ((), []) _ rfl 0 1 Nat.zero_lt_one 10 20 rfl rfl
    (fun m hm => by
      rcases m with _ | _ | m
      · omega
      · omega
      · rfl)
  have hexe := c3_latest_error_wins .read_before_execution (Or.inl rfl)
    executionCollectScenario ((), []) _ rfl 0 1 Nat.zero_lt_one 30 40 rfl rfl
    (fun m hm => by
      rcases m with _ | _ | m
      · omega
      · omega
      · rfl)
  exact ⟨Nat.zero_lt_one, hatt.1.trans rfl,
    ((hexe.2 rfl).1).trans rfl, ((hexe.2 rfl).2).trans rfl⟩

/-- C5: the combined interceptor view is the client registrar's list
followed by the operation registrar's list; registration appends, so
registration order is preserved with no de-duplication (a sequence of
`register` calls from the empty registrar reproduces the sequence exactly,
duplicates included); and every dispatch method iterates exactly that
concatenation. -/
theorem c5_concatenated_order {Ctx Cfg Err : Type}
    (c o : InterceptorRegistrar Ctx Cfg Err) :
    (Interceptors.mk c o).interceptors = c.list ++ o.list
    ∧ (∀ (r : InterceptorRegistrar Ctx Cfg Err) (x : Interceptor Ctx Cfg Err),
        (r.register x).list = r.list ++ [x])
    ∧ (∀ (xs : List (Interceptor Ctx Cfg Err)),
        (xs.foldl InterceptorRegistrar.register ⟨[]⟩).list = xs)
    ∧ (∀ (p : HookPoint) (s : Ctx × Cfg),
        (Interceptors.mk c o).dispatch p s =
          runHookLoop ((c.list ++ o.list).map (fun h => h.action p)) s) :=
  ⟨rfl,
   fun _ _ => rfl,
   fun xs => by rw [foldl_register]; rfl,
   fun _ _ => rfl⟩

/-- C10: both `before_execution` dispatch entry points iterate the full
concatenation of the client and operation registries (each is generated
over `self.interceptors()`), so with both registries non-empty each
registered interceptor's `read_before_execution` hook runs in both passes:
with side-channel-logging interceptors `cs` (client) and `os` (operation),
the client pass logs `cs ++ os`, and the operation pass run on the
resulting state logs `cs ++ os` again. -/
theorem c10_both_passes_full_chain {Ctx Cfg Err : Type}
    (i : Interceptors Ctx Cfg Err) (s : Ctx × Cfg) (cs os : List Nat) :
    i.client_read_before_execution s =
      runHookLoop ((i.client_interceptors.list ++ i.operation_interceptors.list).map
        (fun h => h.action .read_before_execution)) s
    ∧ i.operation_read_before_execution s =
      runHookLoop ((i.client_interceptors.list ++ i.operation_interceptors.list).map
        (fun h => h.action .read_before_execution)) s
    ∧ (mkLogged cs os).client_read_before_execution ((), []) = (((), cs ++ os), none)
    ∧ (mkLogged cs os).operation_read_before_execution
        (((mkLogged cs os).client_read_before_execution ((), [])).1) =
        (((), (cs ++ os) ++ (cs ++ os)), none) := by
  refine ⟨rfl, rfl, ?_, ?_⟩
  · show runHookLoopAux
        ((((cs.map loggingRBE) ++ (os.map loggingRBE)).map
          (fun h => h.action .read_before_execution))) ((), []) none = _
    rw [← List.map_append, logging_run]
    simp
  · show runHookLoopAux
        ((((cs.map loggingRBE) ++ (os.map loggingRBE)).map
          (fun h => h.action .read_before_execution)))
        (((mkLogged cs os).client_read_before_execution ((), [])).1) none = _
    have h1 : ((mkLogged cs os).client_read_before_execution ((), [])).1 = ((), cs ++ os) := by
      show (runHookLoopAux
        ((((cs.map loggingRBE) ++ (os.map loggingRBE)).map
          (fun h => h.action .read_before_execution))) ((), []) none).1 = _
      rw [← List.map_append, logging_run]
      simp
    rw [h1, ← List.map_append, logging_run]

/-- C7 counterexample: the `Interceptor` trait does not declare eighteen
hook points — `allHookPoints`, the transcription of its method list, has
nineteen entries. -/
theorem c7_counterexample : ¬ (allHookPoints.length = 18) := by decide

/-- C7 amended: the Hook Interface declares exactly nineteen named hook
points, pairwise distinct and exhaustive, each declared against exactly
one phase (the total assignment `phaseOf`), and each defaulting to a no-op
that leaves the context and configuration unchanged and returns success. -/
theorem c7_amended (Ctx Cfg Err : Type) :
    allHookPoints.length = 19
    ∧ allHookPoints.Nodup
    ∧ (∀ p : HookPoint, p ∈ allHookPoints)
    ∧ (∀ p : HookPoint, ∃! ph : Phase, phaseOf p = ph)
    ∧ (∀ (p : HookPoint) (s : Ctx × Cfg),
        (defaultInterceptor Ctx Cfg Err).action p s = (s, none)) := by
  refine ⟨rfl, by decide, fun p => by cases p <;> simp [allHookPoints],
    fun p => ⟨phaseOf p, rfl, fun ph h => h.symm⟩, fun p s => ?_⟩
  obtain ⟨ctx, cfg⟩ := s
  cases p <;> rfl

/-- Invariant behind C8: once an attempt starts from the captured pre-loop
request, every following attempt also starts from it, whatever mutations
the attempts apply. -/
theorem runAttempts_invariant {Req : Type} :
    ∀ (fs : List (Req → Req)) (st : RetryLoopState Req),
      st.attempt_request = st.pre_loop_request →
      (runAttempts st fs).pre_loop_request = st.pre_loop_request ∧
      (runAttempts st fs).attempt_request = st.pre_loop_request := by
  intro fs
  induction fs with
  | nil => intro st h; exact ⟨rfl, h⟩
  | cons f rest ih =>
      intro st _
      exact ih ((st.applyAttemptMutations f).nextAttempt) rfl

/-- C8: after any number of attempts, each applying arbitrary mutations to
its request (signers, interceptors), the state from which the next attempt
starts carries the request exactly as it stood before the retry loop was
entered; no mutation from a previous attempt survives into the next
attempt's checkpoint. -/
theorem c8_attempt_isolation {Req : Type} (r : Req) (fs : List (Req → Req)) :
    (runAttempts (RetryLoopState.enter r) fs).attempt_request = r
    ∧ (runAttempts (RetryLoopState.enter r) fs).pre_loop_request = r :=
  ⟨(runAttempts_invariant fs (RetryLoopState.enter r) rfl).2,
   (runAttempts_invariant fs (RetryLoopState.enter r) rfl).1⟩

/-- C9: a modify hook returning a value whose logical type tag differs from
the one passed in yields the fatal `typeConstraintViolation` immediately —
independently of whether the hook reported an error of its own, hence of
any group error policy — and conversely any non-fatal outcome means the
hook preserved the logical type. -/
theorem c9_type_constraint {Tag Val Err : Type} [DecidableEq Tag]
    (hook : TypeErasedValue Tag Val → TypeErasedValue Tag Val × Option Err)
    (x : TypeErasedValue Tag Val) :
    ((hook x).1.tag ≠ x.tag →
      applyModifyHook hook x = ModifyHookOutcome.typeConstraintViolation)
    ∧ (applyModifyHook hook x ≠ ModifyHookOutcome.typeConstraintViolation →
      (hook x).1.tag = x.tag) := by
  constructor
  · intro hne
    simp [applyModifyHook, if_neg hne]
  · intro hok
    by_contra hne
    exact hok (by simp [applyModifyHook, if_neg hne])

/-- C9 witness: a modify hook handed a request-tagged value that returns a
response-tagged value (and reports no error of its own) is rejected with
the fatal type-constraint violation. -/
theorem c9_witness :
    LogicalType.response ≠ LogicalType.request ∧
    applyModifyHook
      (fun x : TypeErasedValue LogicalType Nat =>
        (⟨LogicalType.response, x.val⟩, (none : Option Nat)))
      ⟨LogicalType.request, 0⟩ =
      ModifyHookOutcome.typeConstraintViolation :=
  ⟨by decide,
   (c9_type_constraint
     (fun x : TypeErasedValue LogicalType Nat =>
       (⟨LogicalType.response, x.val⟩, (none : Option Nat)))
     ⟨LogicalType.request, 0⟩).1 (by decide)⟩

/-! ## Claims about the auth orchestrator -/

/-- C2: when the resolver returns an ordered candidate list whose leading
block consists of skipped candidates (no registered scheme, or a scheme
with no identity resolver) and whose next candidate `b` has both, and
identity resolution and signing succeed, `orchestrate_auth` returns the
checkpoint whose request was signed by `b`'s signer. -/
theorem c2_first_match_signs {Params Req Ident Err IR : Type}
    (cfg : ConfigBag Params Req Ident Err IR) (cp : AttemptCheckpoint Req Err)
    (pre rest : List String) (b : String)
    (s : HttpAuthScheme Req Ident Err IR) (r : IdentityResolver Ident Err)
    (ident : Ident) (signed : Req)
    (hres : cfg.auth_option_resolver.resolve_auth_options
      cfg.auth_option_resolver_params = .ok (pre ++ b :: rest))
    (hpre : ∀ a ∈ pre, skippedCandidate cfg a)
    (hs : cfg.http_auth_schemes.scheme b = some s)
    (hr : s.identity_resolver cfg.identity_resolvers = some r)
    (hid : r.resolve_identity = .ok ident)
    (hsign : s.request_signer.sign_request cp.request ident = .ok signed) :
    orchestrate_auth cp cfg = .ok { cp with request := signed } := by
  unfold orchestrate_auth
  rw [hres]
  show authLoop cfg cp (pre ++ b :: rest) = _
  rw [authLoop_skip cfg cp pre (b :: rest) hpre]
  simp only [authLoop, hs, hr, hid, hsign]

/-- The bearer-style auth scheme used by the auth witnesses: its identity
resolver is available exactly when the registry holds a token, and its
signer adds an Authorization header carrying the resolved identity. -/
def bearerScheme :
    HttpAuthScheme (List (String × String)) String String (Option String) :=
  { identity_resolver := fun ir => ir.map (fun t => ⟨.ok t⟩)
  , request_signer :=
      ⟨fun req ident => .ok (req ++ [("Authorization", "Bearer " ++ ident)])⟩ }

/-- Configuration with candidate options [A, B], a scheme registered only
for B, and an identity resolver available only for B. -/
def twoOptionCfg :
    ConfigBag Unit (List (String × String)) String String (Option String) :=
  { auth_option_resolver_params := ()
  , auth_option_resolver := ⟨fun _ => .ok ["A", "B"]⟩
  , identity_resolvers := some "token"
  , http_auth_schemes := ⟨[("B", bearerScheme)]⟩ }

/-- An unsigned checkpoint holding an empty header list. -/
def emptyCheckpoint : AttemptCheckpoint (List (String × String)) String :=
  ⟨[], none⟩

/-- C2 witness: with options [A, B], a scheme and identity resolver
registered only for B, the request comes back signed by B's signer. -/
theorem c2_witness :
    orchestrate_auth emptyCheckpoint twoOptionCfg =
      .ok ⟨[("Authorization", "Bearer token")], none⟩ :=
  c2_first_match_signs twoOptionCfg emptyCheckpoint ["A"] [] "B"
    bearerScheme ⟨.ok "token"⟩ "token" [("Authorization", "Bearer token")]
    rfl
    (by
      intro a ha sch hsch
      have haA : a = "A" := by simpa using ha
      subst haA
      have : twoOptionCfg.http_auth_schemes.scheme "A" = none := rfl
      rw [this] at hsch
      exact Option.noConfusion hsch)
    rfl rfl rfl rfl

/-- C4: when every candidate the resolver returns is skipped (no registered
scheme, or no identity resolver for its scheme) — including the case of an
empty candidate list — `orchestrate_auth` fails with the
"no auth scheme matched" error; no checkpoint (hence no signed request) is
produced. -/
theorem c4_no_match {Params Req Ident Err IR : Type}
    (cfg : ConfigBag Params Req Ident Err IR) (cp : AttemptCheckpoint Req Err)
    (opts : List String)
    (hres : cfg.auth_option_resolver.resolve_auth_options
      cfg.auth_option_resolver_params = .ok opts)
    (hall : ∀ a ∈ opts, skippedCandidate cfg a) :
    orchestrate_auth cp cfg = .error .noAuthSchemeMatched := by
  unfold orchestrate_auth
  rw [hres]
  show authLoop cfg cp opts = _
  have h : authLoop cfg cp (opts ++ []) = authLoop cfg cp [] :=
    authLoop_skip cfg cp opts [] hall
  rw [List.append_nil] at h
  rw [h]
  rfl

/-- Configuration with candidate option [A] and no registered scheme. -/
def noSchemeCfg :
    ConfigBag Unit (List (String × String)) String String (Option String) :=
  { auth_option_resolver_params := ()
  , auth_option_resolver := ⟨fun _ => .ok ["A"]⟩
  , identity_resolvers := none
  , http_auth_schemes := ⟨[]⟩ }

/-- C4 witness: with options [A] and no scheme registered for A,
orchestration fails with the "no auth scheme matched" error. -/
theorem c4_witness :
    orchestrate_auth emptyCheckpoint noSchemeCfg = .error .noAuthSchemeMatched :=
  c4_no_match noSchemeCfg emptyCheckpoint ["A"] rfl
    (fun _ _ _ hsch => Option.noConfusion hsch)

/-- C6: error routing in `orchestrate_auth`.  An auth-option-resolution
failure and an identity-resolution failure are each returned directly as a
construction failure — no signing happens; a signer failure is instead
surfaced through the checkpoint's standard failure path: the function
returns the checkpoint with the error installed as the output-or-error
(the same jump-to-completion contract as a hook failure), not a
construction failure. -/
theorem c6_error_routing {Params Req Ident Err IR : Type}
    (cfg : ConfigBag Params Req Ident Err IR) (cp : AttemptCheckpoint Req Err) :
    (∀ e, cfg.auth_option_resolver.resolve_auth_options
        cfg.auth_option_resolver_params = .error e →
      orchestrate_auth cp cfg = .error (.constructionFailure e))
    ∧ (∀ (pre rest : List String) (b : String)
        (s : HttpAuthScheme Req Ident Err IR) (r : IdentityResolver Ident Err) e,
        cfg.auth_option_resolver.resolve_auth_options
          cfg.auth_option_resolver_params = .ok (pre ++ b :: rest) →
        (∀ a ∈ pre, skippedCandidate cfg a) →
        cfg.http_auth_schemes.scheme b = some s →
        s.identity_resolver cfg.identity_resolvers = some r →
        r.resolve_identity = .error e →
        orchestrate_auth cp cfg = .error (.constructionFailure e))
    ∧ (∀ (pre rest : List String) (b : String)
        (s : HttpAuthScheme Req Ident Err IR) (r : IdentityResolver Ident Err)
        (ident : Ident) e,
        cfg.auth_option_resolver.resolve_auth_options
          cfg.auth_option_resolver_params = .ok (pre ++ b :: rest) →
        (∀ a ∈ pre, skippedCandidate cfg a) →
        cfg.http_auth_schemes.scheme b = some s →
        s.identity_resolver cfg.identity_resolvers = some r →
        r.resolve_identity = .ok ident →
        s.request_signer.sign_request cp.request ident = .error e →
        orchestrate_auth cp cfg = .ok (cp.fail e)) := by
  refine ⟨?_, ?_, ?_⟩
  · intro e hres
    unfold orchestrate_auth
    rw [hres]
  · intro pre rest b s r e hres hpre hs hr hid
    unfold orchestrate_auth
    rw [hres]
    show authLoop cfg cp (pre ++ b :: rest) = _
    rw [authLoop_skip cfg cp pre (b :: rest) hpre]
    simp only [authLoop, hs, hr, hid]
  · intro pre rest b s r ident e hres hpre hs hr hid hsign
    unfold orchestrate_auth
    rw [hres]
    show authLoop cfg cp (pre ++ b :: rest) = _
    rw [authLoop_skip cfg cp pre (b :: rest) hpre]
    simp only [authLoop, hs, hr, hid, hsign]

/-- Configuration whose auth-option resolver itself fails. -/
def failingResolverCfg :
    ConfigBag Unit (List (String × String)) String String (Option String) :=
  { auth_option_resolver_params := ()
  , auth_option_resolver := ⟨fun _ => .error "resolver-failure"⟩
  , identity_resolvers := none
  , http_auth_schemes := ⟨[]⟩ }

/-- A scheme whose identity resolver is available but fails to resolve. -/
def failingIdentityScheme :
    HttpAuthScheme (List (String × String)) String String (Option String) :=
  { identity_resolver := fun _ => some ⟨.error "identity-failure"⟩
  , request_signer := ⟨fun req _ => .ok req⟩ }

/-- Configuration selecting `failingIdentityScheme` for candidate B. -/
def failingIdentityCfg :
    ConfigBag Unit (List (String × String)) String String (Option String) :=
  { auth_option_resolver_params := ()
  , auth_option_resolver := ⟨fun _ => .ok ["B"]⟩
  , identity_resolvers := some "token"
  , http_auth_schemes := ⟨[("B", failingIdentityScheme)]⟩ }

/-- A scheme whose identity resolves but whose signer fails. -/
def failingSignerScheme :
    HttpAuthScheme (List (String × String)) String String (Option String) :=
  { identity_resolver := fun _ => some ⟨.ok "token"⟩
  , request_signer := ⟨fun _ _ => .error "signer-failure"⟩ }

/-- Configuration selecting `failingSignerScheme` for candidate B. -/
def failingSignerCfg :
    ConfigBag Unit (List (String × String)) String String (Option String) :=
  { auth_option_resolver_params := ()
  , auth_option_resolver := ⟨fun _ => .ok ["B"]⟩
  , identity_resolvers := some "token"
  , http_auth_schemes := ⟨[("B", failingSignerScheme)]⟩ }

/-- C6 witness: resolver failure and identity failure come back as
construction failures; signer failure comes back as an `ok` checkpoint
carrying the error in its output-or-error slot. -/
theorem c6_witness :
    orchestrate_auth emptyCheckpoint failingResolverCfg =
      .error (.constructionFailure "resolver-failure")
    ∧ orchestrate_auth emptyCheckpoint failingIdentityCfg =
      .error (.constructionFailure "identity-failure")
    ∧ orchestrate_auth emptyCheckpoint failingSignerCfg =
      .ok ⟨[], some "signer-failure"⟩ :=
  ⟨(c6_error_routing failingResolverCfg emptyCheckpoint).1 "resolver-failure" rfl,
   (c6_error_routing failingIdentityCfg emptyCheckpoint).2.1 [] [] "B"
     failingIdentityScheme ⟨.error "identity-failure"⟩ "identity-failure"
     rfl (fun a ha => absurd ha (List.not_mem_nil a)) rfl rfl rfl,
   (c6_error_routing failingSignerCfg emptyCheckpoint).2.2 [] [] "B"
     failingSignerScheme ⟨.ok "token"⟩ "token" "signer-failure"
     rfl (fun a ha => absurd ha (List.not_mem_nil a)) rfl rfl rfl rfl⟩
